import Mathlib

/-!
Verification of the avr-pong repository (AVR software video generator and
pong game) against its natural-language specification.

The development shallowly embeds the C sources:
* `videoutil.c` (framebuffer drawing primitives) as pure functions over a
  `VState` record whose `mem` field models the byte memory reached through
  the `videoBuffer` pointer;
* `ponggame.c` (`game()` state machine) as a pure function over a
  `GameState` record;
* `pong.c` (scan-line sync state machine and renderer of the main event
  loop) as a step function over a `PState` record.

Machine integers are modelled as `Nat`/`Int` with explicit `% 2^w`
reductions exactly where the C types truncate (`uint8_t`, `uint16_t`);
`Int.tdiv` models C's truncating signed division.
-/

set_option autoImplicit false

namespace AvrPong

/-! ### videoutil.c : global state and drawing primitives -/

/-- State of the `videoutil.c` module: the global variables
`horisontalPixels`, `verticalPixels`, `horizontalBytes`, `bufferSize`,
`initialized`, and the byte memory addressed through `videoBuffer`
(modelled as a total function from byte index to byte value). -/
structure VState where
  horisontalPixels : Nat
  verticalPixels : Nat
  horizontalBytes : Nat
  bufferSize : Nat
  mem : Nat → Nat
  initialized : Bool

/-- The `bitFlip[8]` table from videoutil.c. -/
def bitFlip : List Nat := [0x80, 0x40, 0x20, 0x10, 0x08, 0x04, 0x02, 0x01]

/-- The digit font table `font[70]` from videoutil.c (7 bytes per digit). -/
def font : List Nat :=
  [0x70, 0x88, 0x88, 0x88, 0x88, 0x88, 0x70,
   0x10, 0x30, 0x10, 0x10, 0x10, 0x10, 0x10,
   0x70, 0x88, 0x08, 0x70, 0x80, 0x80, 0xF8,
   0x70, 0x88, 0x08, 0x30, 0x08, 0x88, 0x70,
   0x10, 0x90, 0x90, 0x90, 0xF8, 0x10, 0x10,
   0xF8, 0x80, 0x80, 0xF0, 0x08, 0x88, 0x70,
   0x70, 0x88, 0x80, 0xF0, 0x88, 0x88, 0x70,
   0xF8, 0x08, 0x10, 0x20, 0x40, 0x80, 0x80,
   0x70, 0x88, 0x88, 0x70, 0x88, 0x88, 0x70,
   0x70, 0x88, 0x88, 0x78, 0x08, 0x88, 0x70]

/-- `FONTBYTES` from videoutil.c. -/
def FONTBYTES : Nat := 7

/-- `videoinit(buffer, hpixels, vpixels)` from videoutil.c.  The stored
width/height are `hpixels-1`/`vpixels-1` as `uint16_t` (wrapping),
`horizontalBytes` is `hpixels/8` truncated to `uint8_t`, and
`bufferSize` is `(hpixels/8)*vpixels` truncated to `uint16_t`. -/
def videoinit (buffer : Nat → Nat) (hpixels vpixels : Nat) : VState :=
  { horisontalPixels := (hpixels + 65535) % 65536
    verticalPixels := (vpixels + 65535) % 65536
    horizontalBytes := (hpixels / 8) % 256
    bufferSize := ((hpixels / 8) * vpixels) % 65536
    mem := buffer
    initialized := true }

/-- The initial values of the videoutil.c globals before any call to
`videoinit` (all counters zero, `initialized` clear); the memory behind
the null buffer pointer is taken to be all-zero bytes. -/
def uninitV : VState :=
  { horisontalPixels := 0, verticalPixels := 0, horizontalBytes := 0,
    bufferSize := 0, mem := fun _ => 0, initialized := false }

/-- Point update of a byte memory. -/
def writeMem (m : Nat → Nat) (i v : Nat) : Nat → Nat :=
  fun j => if j = i then v else m j

/-- `clear(pattern)` from videoutil.c: fill the first `bufferSize` bytes. -/
def clear (s : VState) (pattern : Nat) : VState :=
  if s.initialized = false then s
  else
    { s with mem := fun j => if j < s.bufferSize then pattern % 256 else s.mem j }

/-- `pset(x,y)` from videoutil.c: set the pixel bit at `(x,y)`. -/
def pset (s : VState) (x y : Nat) : VState :=
  if s.initialized = false then s
  else if s.horisontalPixels < x ∨ s.verticalPixels < y then s
  else
    let byteLocation := (x / 8) % 256
    let index := (y * s.horizontalBytes + byteLocation) % 65536
    let pattern := bitFlip.getD (x - byteLocation * 8) 0
    { s with mem := writeMem s.mem index (s.mem index ||| pattern) }

/-- `preset(x,y)` from videoutil.c: clear the pixel bit at `(x,y)`
(`&= ~pattern` on a `uint8_t` is `&&& (255 ^^^ pattern)`). -/
def preset (s : VState) (x y : Nat) : VState :=
  if s.initialized = false then s
  else if s.horisontalPixels < x ∨ s.verticalPixels < y then s
  else
    let byteLocation := (x / 8) % 256
    let index := (y * s.horizontalBytes + byteLocation) % 65536
    let pattern := bitFlip.getD (x - byteLocation * 8) 0
    { s with mem := writeMem s.mem index (s.mem index &&& (255 ^^^ pattern)) }

/-- `pflip(x,y)` from videoutil.c: toggle (XOR) the pixel bit at `(x,y)`. -/
def pflip (s : VState) (x y : Nat) : VState :=
  if s.initialized = false then s
  else if s.horisontalPixels < x ∨ s.verticalPixels < y then s
  else
    let byteLocation := (x / 8) % 256
    let index := (y * s.horizontalBytes + byteLocation) % 65536
    let pattern := bitFlip.getD (x - byteLocation * 8) 0
    { s with mem := writeMem s.mem index (s.mem index ^^^ pattern) }

/-- Helper for `writechar`: the glyph-blit loop body, writing
`font[ifont+i]` at byte index `(iv + i*stride) mod 2^16` for
`i = 0..n-1` (the C loop advances `indexVid` by `horizontalBytes`,
a `uint16_t` accumulation). -/
def writeGlyph (m : Nat → Nat) (iv stride ifont : Nat) : Nat → Nat → Nat
  | 0 => m
  | n + 1 => writeMem (writeGlyph m iv stride ifont n)
      ((iv + n * stride) % 65536) (font.getD (ifont + n) 0)

/-- `write(x,y,text)` from videoutil.c (declared `writechar` in
videoutil.h and called under that name by ponggame.c): blit the glyph of
a digit character.  Note: the source checks only the character range
48..57 and does NOT check the `initialized` flag. -/
def writechar (s : VState) (x y : Nat) (text : Nat) : VState :=
  if text < 48 ∨ 57 < text then s
  else
    let indexVid := (x / 8 + s.horizontalBytes * y) % 65536
    let indexFont := (text - 48) * FONTBYTES
    { s with mem := writeGlyph s.mem indexVid s.horizontalBytes indexFont FONTBYTES }

/-- Observation of the framebuffer bit addressing pixel `(x,y)`: bit
`7 - x mod 8` of the byte at index `y*stride + x/8` (index reduced as the
`uint16_t` the code computes). -/
def pixelAt (s : VState) (x y : Nat) : Bool :=
  Nat.testBit (s.mem ((y * s.horizontalBytes + x / 8) % 65536)) (7 - x % 8)

/-! ### Basic lemmas about the primitives -/

lemma bitFlip_getD (k : Nat) (hk : k < 8) : bitFlip.getD k 0 = 2 ^ (7 - k) := by
  interval_cases k <;> rfl

lemma byteLocation_eq (x : Nat) (hx : x < 2048) : (x / 8) % 256 = x / 8 := by
  have : x / 8 < 256 := by omega
  exact Nat.mod_eq_of_lt this

lemma pattern_index_eq (x : Nat) (hx : x < 2048) :
    x - ((x / 8) % 256) * 8 = x % 8 := by
  rw [byteLocation_eq x hx]
  omega

lemma h255_testBit : ∀ k, k < 8 → (255 : Nat).testBit k = true := by decide

lemma testBit_lor_two_pow_of_ne {b k t : Nat} (h : t ≠ k) :
    (b ||| 2 ^ k).testBit t = b.testBit t := by
  simp [Nat.testBit_lor, Nat.testBit_two_pow_of_ne (Ne.symm h)]

lemma testBit_xor_two_pow_of_ne {b k t : Nat} (h : t ≠ k) :
    (b ^^^ 2 ^ k).testBit t = b.testBit t := by
  simp [Nat.testBit_xor, Nat.testBit_two_pow_of_ne (Ne.symm h)]

lemma testBit_land_mask_of_ne {b k t : Nat} (hk : k < 8) (hb : b < 256)
    (h : t ≠ k) : (b &&& (255 ^^^ 2 ^ k)).testBit t = b.testBit t := by
  by_cases ht : t < 8
  · simp [Nat.testBit_land, Nat.testBit_xor, h255_testBit t ht,
      Nat.testBit_two_pow_of_ne (Ne.symm h)]
  · have hbt : b.testBit t = false := by
      refine Nat.testBit_lt_two_pow (lt_of_lt_of_le hb ?_)
      calc (256 : Nat) = 2 ^ 8 := rfl
        _ ≤ 2 ^ t := Nat.pow_le_pow_right (by omega) (by omega)
    have h2 : ((2 : Nat) ^ k).testBit t = false :=
      Nat.testBit_two_pow_of_ne (by omega)
    simp [Nat.testBit_land, hbt]

/-- Equation for the write path of `pset` at an in-bounds coordinate. -/
lemma pset_eq (s : VState) (x y : Nat) (hinit : s.initialized = true)
    (hx : x ≤ s.horisontalPixels) (hy : y ≤ s.verticalPixels) (hx8 : x < 2048) :
    pset s x y = { s with mem := writeMem s.mem ((y * s.horizontalBytes + x / 8) % 65536) (s.mem ((y * s.horizontalBytes + x / 8) % 65536) ||| 2 ^ (7 - x % 8)) } := by
  have hxm : x % 8 < 8 := Nat.mod_lt _ (by omega)
  rw [pset, if_neg (by simp [hinit]), if_neg (by omega)]
  simp only [byteLocation_eq x hx8]
  rw [show x - x / 8 * 8 = x % 8 from by omega, bitFlip_getD (x % 8) hxm]

/-- Equation for the write path of `preset` at an in-bounds coordinate. -/
lemma preset_eq (s : VState) (x y : Nat) (hinit : s.initialized = true)
    (hx : x ≤ s.horisontalPixels) (hy : y ≤ s.verticalPixels) (hx8 : x < 2048) :
    preset s x y = { s with mem := writeMem s.mem ((y * s.horizontalBytes + x / 8) % 65536) (s.mem ((y * s.horizontalBytes + x / 8) % 65536) &&& (255 ^^^ 2 ^ (7 - x % 8))) } := by
  have hxm : x % 8 < 8 := Nat.mod_lt _ (by omega)
  rw [preset, if_neg (by simp [hinit]), if_neg (by omega)]
  simp only [byteLocation_eq x hx8]
  rw [show x - x / 8 * 8 = x % 8 from by omega, bitFlip_getD (x % 8) hxm]

/-- Equation for the write path of `pflip` at an in-bounds coordinate. -/
lemma pflip_eq (s : VState) (x y : Nat) (hinit : s.initialized = true)
    (hx : x ≤ s.horisontalPixels) (hy : y ≤ s.verticalPixels) (hx8 : x < 2048) :
    pflip s x y = { s with mem := writeMem s.mem ((y * s.horizontalBytes + x / 8) % 65536) (s.mem ((y * s.horizontalBytes + x / 8) % 65536) ^^^ 2 ^ (7 - x % 8)) } := by
  have hxm : x % 8 < 8 := Nat.mod_lt _ (by omega)
  rw [pflip, if_neg (by simp [hinit]), if_neg (by omega)]
  simp only [byteLocation_eq x hx8]
  rw [show x - x / 8 * 8 = x % 8 from by omega, bitFlip_getD (x % 8) hxm]

/-! ### Claims about the framebuffer primitives -/

/-- Claim C5 (counterexample): the claim says the row byte count is
`⌈W/8⌉` for every width `W`, but `videoinit` computes `hpixels / 8` with
truncating division: at `W = 10` the stride is `1` while `⌈10/8⌉ = 2`. -/
theorem c5_counterexample :
    (videoinit (fun _ => 0) 10 2).horizontalBytes = 1 ∧
    (10 + 7) / 8 = 2 ∧ (1 : Nat) ≠ 2 :=
  ⟨rfl, rfl, by decide⟩

/-- Claim C5 (amended): for every call `videoinit(buffer, W, H)` the
resulting row byte count is `⌊W/8⌋` (truncated to `uint8_t`); it agrees
with `⌈W/8⌉` exactly on widths divisible by 8 (small enough that the
`uint8_t` store does not truncate). -/
theorem c5_stride (buffer : Nat → Nat) (W H : Nat) :
    (videoinit buffer W H).horizontalBytes = W / 8 % 256 ∧
    (8 ∣ W → W ≤ 2040 → (videoinit buffer W H).horizontalBytes = (W + 7) / 8) := by
  refine ⟨rfl, fun h8 hW => ?_⟩
  obtain ⟨k, rfl⟩ := h8
  show 8 * k / 8 % 256 = (8 * k + 7) / 8
  have h1 : 8 * k / 8 = k := by omega
  have h2 : (8 * k + 7) / 8 = k := by omega
  rw [h1, h2, Nat.mod_eq_of_lt (by omega)]

/-- Claim C5 (witness): instantiation at the game's own configuration
`W = 88`, where the stride is `11 = ⌈88/8⌉`. -/
theorem c5_stride_witness :
    (videoinit (fun _ => 0) 88 60).horizontalBytes = (88 + 7) / 8 :=
  (c5_stride (fun _ => 0) 88 60).2 (by decide) (by decide)

/-- Claim C7: on an initialized framebuffer of dimensions `W × H`
(the stored bounds are `W-1` and `H-1`), every call of `pset`, `preset`
or `pflip` at a coordinate with `x ≥ W` or `y ≥ H` returns the state
unchanged (silent clipping). -/
theorem c7_oob_clip (s : VState) (x y W H : Nat)
    (hinit : s.initialized = true)
    (hW : s.horisontalPixels = W - 1) (hH : s.verticalPixels = H - 1)
    (hW1 : 1 ≤ W) (hH1 : 1 ≤ H)
    (hxy : W ≤ x ∨ H ≤ y) :
    pset s x y = s ∧ preset s x y = s ∧ pflip s x y = s := by
  have hcond : s.horisontalPixels < x ∨ s.verticalPixels < y := by omega
  refine ⟨?_, ?_, ?_⟩
  · rw [pset, if_neg (by simp [hinit]), if_pos hcond]
  · rw [preset, if_neg (by simp [hinit]), if_pos hcond]
  · rw [pflip, if_neg (by simp [hinit]), if_pos hcond]

/-- Claim C7 (witness): at the game's configuration `88 × 60`, the calls
at `(88, 5)` (first column past the right edge) are all no-ops. -/
theorem c7_oob_clip_witness :
    pset (videoinit (fun _ => 0) 88 60) 88 5 = videoinit (fun _ => 0) 88 60 ∧
    preset (videoinit (fun _ => 0) 88 60) 88 5 = videoinit (fun _ => 0) 88 60 ∧
    pflip (videoinit (fun _ => 0) 88 60) 88 5 = videoinit (fun _ => 0) 88 60 :=
  c7_oob_clip (videoinit (fun _ => 0) 88 60) 88 5 88 60 rfl (by decide)
    (by decide) (by decide) (by decide) (Or.inl (by decide))

/-- Claim C9: on an initialized framebuffer, at every in-bounds
coordinate (`x ≤ horisontalPixels`, `y ≤ verticalPixels`; the coordinate
is small enough that the C `uint8_t` byte-offset arithmetic does not
truncate, which covers every representable configuration), `pset` then
read-back shows the pixel set, `preset` then read-back shows it clear,
and `pflip` applied twice restores the buffer byte-for-byte. -/
theorem c9_pixel_ops (s : VState) (x y : Nat) (hinit : s.initialized = true)
    (hx : x ≤ s.horisontalPixels) (hy : y ≤ s.verticalPixels) (hx8 : x < 2048) :
    pixelAt (pset s x y) x y = true ∧
    pixelAt (preset s x y) x y = false ∧
    (pflip (pflip s x y) x y).mem = s.mem := by
  refine ⟨?_, ?_, ?_⟩
  · rw [pset_eq s x y hinit hx hy hx8]
    simp [pixelAt, writeMem, Nat.testBit_lor, Nat.testBit_two_pow_self]
  · rw [preset_eq s x y hinit hx hy hx8]
    have hk : 7 - x % 8 < 8 := by omega
    simp [pixelAt, writeMem, Nat.testBit_land, Nat.testBit_xor,
      h255_testBit _ hk, Nat.testBit_two_pow_self]
  · rw [pflip_eq s x y hinit hx hy hx8]
    rw [pflip_eq { s with mem := writeMem s.mem ((y * s.horizontalBytes + x / 8) % 65536) (s.mem ((y * s.horizontalBytes + x / 8) % 65536) ^^^ 2 ^ (7 - x % 8)) } x y hinit hx hy hx8]
    funext j
    simp only [writeMem]
    by_cases hj : j = (y * s.horizontalBytes + x / 8) % 65536
    · simp [hj, Nat.xor_cancel_right]
    · simp [hj]

/-- Claim C9 (witness): at the game's configuration `88 × 60` and the
coordinate `(5, 7)`. -/
theorem c9_pixel_ops_witness :
    pixelAt (pset (videoinit (fun _ => 0) 88 60) 5 7) 5 7 = true ∧
    pixelAt (preset (videoinit (fun _ => 0) 88 60) 5 7) 5 7 = false ∧
    (pflip (pflip (videoinit (fun _ => 0) 88 60) 5 7) 5 7).mem =
      (videoinit (fun _ => 0) 88 60).mem :=
  c9_pixel_ops (videoinit (fun _ => 0) 88 60) 5 7 rfl (by decide) (by decide)
    (by decide)

/-- Claim C10: on an initialized framebuffer, at every in-bounds
coordinate (with the index arithmetic free of `uint8_t`/`uint16_t`
truncation, and the touched cell holding a byte value), each of `pset`,
`preset`, `pflip` changes at most the single buffer byte at index
`y*stride + x/8`, within that byte at most the single bit `7 - x mod 8`,
and leaves all configuration state (dimensions, stride, buffer size,
initialized flag) unchanged. -/
theorem c10_frame_effect (s : VState) (x y : Nat) (hinit : s.initialized = true)
    (hx : x ≤ s.horisontalPixels) (hy : y ≤ s.verticalPixels) (hx8 : x < 2048)
    (hidx : y * s.horizontalBytes + x / 8 < 65536)
    (hbyte : s.mem (y * s.horizontalBytes + x / 8) < 256) :
    (∀ j, j ≠ y * s.horizontalBytes + x / 8 →
      (pset s x y).mem j = s.mem j ∧ (preset s x y).mem j = s.mem j ∧
      (pflip s x y).mem j = s.mem j) ∧
    (∀ t, t ≠ 7 - x % 8 →
      ((pset s x y).mem (y * s.horizontalBytes + x / 8)).testBit t
          = (s.mem (y * s.horizontalBytes + x / 8)).testBit t ∧
      ((preset s x y).mem (y * s.horizontalBytes + x / 8)).testBit t
          = (s.mem (y * s.horizontalBytes + x / 8)).testBit t ∧
      ((pflip s x y).mem (y * s.horizontalBytes + x / 8)).testBit t
          = (s.mem (y * s.horizontalBytes + x / 8)).testBit t) ∧
    ((pset s x y).horisontalPixels = s.horisontalPixels ∧
      (pset s x y).verticalPixels = s.verticalPixels ∧
      (pset s x y).horizontalBytes = s.horizontalBytes ∧
      (pset s x y).bufferSize = s.bufferSize ∧
      (pset s x y).initialized = s.initialized) ∧
    ((preset s x y).horisontalPixels = s.horisontalPixels ∧
      (preset s x y).verticalPixels = s.verticalPixels ∧
      (preset s x y).horizontalBytes = s.horizontalBytes ∧
      (preset s x y).bufferSize = s.bufferSize ∧
      (preset s x y).initialized = s.initialized) ∧
    ((pflip s x y).horisontalPixels = s.horisontalPixels ∧
      (pflip s x y).verticalPixels = s.verticalPixels ∧
      (pflip s x y).horizontalBytes = s.horizontalBytes ∧
      (pflip s x y).bufferSize = s.bufferSize ∧
      (pflip s x y).initialized = s.initialized) := by
  have hmod : (y * s.horizontalBytes + x / 8) % 65536
      = y * s.horizontalBytes + x / 8 := Nat.mod_eq_of_lt hidx
  have hk : 7 - x % 8 < 8 := by omega
  rw [pset_eq s x y hinit hx hy hx8, preset_eq s x y hinit hx hy hx8,
    pflip_eq s x y hinit hx hy hx8]
  refine ⟨?_, ?_, ⟨rfl, rfl, rfl, rfl, rfl⟩, ⟨rfl, rfl, rfl, rfl, rfl⟩,
    ⟨rfl, rfl, rfl, rfl, rfl⟩⟩
  · intro j hj
    rw [hmod]
    exact ⟨by simp [writeMem, hj], by simp [writeMem, hj], by simp [writeMem, hj]⟩
  · intro t ht
    rw [hmod]
    simp only [writeMem, if_pos rfl]
    exact ⟨testBit_lor_two_pow_of_ne ht,
      testBit_land_mask_of_ne hk hbyte ht,
      testBit_xor_two_pow_of_ne ht⟩

/-- Claim C10 (witness): at the game's configuration `88 × 60` and the
coordinate `(5, 7)` over an all-zero buffer, byte 3 (off the addressed
index 77) is untouched by all three primitives. -/
theorem c10_frame_effect_witness :
    (pset (videoinit (fun _ => 0) 88 60) 5 7).mem 3 = (videoinit (fun _ => 0) 88 60).mem 3 ∧
    (preset (videoinit (fun _ => 0) 88 60) 5 7).mem 3 = (videoinit (fun _ => 0) 88 60).mem 3 ∧
    (pflip (videoinit (fun _ => 0) 88 60) 5 7).mem 3 = (videoinit (fun _ => 0) 88 60).mem 3 :=
  ((c10_frame_effect (videoinit (fun _ => 0) 88 60) 5 7 rfl (by decide)
    (by decide) (by decide) (by decide) (by decide)).1) 3 (by decide)

/-- Claim C4 (code bug): with the videoutil globals still in their
pre-`videoinit` state (`initialized = 0`, stride 0), the gated
primitives `clear`/`pset`/`preset`/`pflip` are indeed no-ops, but the
digit-glyph writer `write`/`writechar` is NOT gated: invoked as
`writechar(0,0,'0')` it writes the seven glyph bytes through the
(null) buffer pointer — all at byte index 0 because the stride is 0,
leaving `font[6] = 0x70` there — contradicting the claim and the
source's own comment in `videoinit` ("every function must check this
flag before rendering!"). -/
theorem c4_write_not_gated :
    uninitV.initialized = false ∧ uninitV.mem 0 = 0 ∧
    (writechar uninitV 0 0 48).mem 0 = 0x70 ∧
    pset uninitV 3 4 = uninitV ∧ preset uninitV 3 4 = uninitV ∧
    pflip uninitV 3 4 = uninitV ∧ clear uninitV 255 = uninitV :=
  ⟨rfl, rfl, rfl, rfl, rfl, rfl, rfl⟩

/-! ### ponggame.c : constants, state and the game() state machine -/

/-- `SERVECYCLE` from ponggame.c. -/
def SERVECYCLE : Int := 20
/-- `BALLVELOCITY` from ponggame.c. -/
def BALLVELOCITY : Nat := 3
/-- `NOSERVE` from ponggame.c. -/
def NOSERVE : Nat := 0
/-- `RIGHTSERVE` from ponggame.c. -/
def RIGHTSERVE : Nat := 1
/-- `LEFTSERVE` from ponggame.c. -/
def LEFTSERVE : Nat := 2
/-- `UP` from ponggame.c. -/
def UP : Nat := 0
/-- `DOWN` from ponggame.c. -/
def DOWN : Nat := 1
/-- `NONE` from ponggame.c. -/
def NONE : Nat := 0
/-- `LEFT` from ponggame.c. -/
def LEFT : Nat := 1
/-- `RIGHT` from ponggame.c. -/
def RIGHT : Nat := 2
/-- `TOP` from ponggame.h. -/
def TOP : Int := 1
/-- `BOTTOM` from ponggame.h. -/
def BOTTOM : Int := 59
/-- `RIGHTSCORE` from ponggame.h. -/
def RIGHTSCORE : Int := 4
/-- `LEFTSCORE` from ponggame.h. -/
def LEFTSCORE : Int := -12
/-- `RPADINIT` from ponggame.h. -/
def RPADINIT : Nat := 29
/-- `RPADCOL` from ponggame.h. -/
def RPADCOL : Int := 1
/-- `LPADINIT` from ponggame.h. -/
def LPADINIT : Nat := 29
/-- `LPADCOL` from ponggame.h. -/
def LPADCOL : Int := 86
/-- `HALFPAD` from ponggame.h (also used as `Int` in comparisons). -/
def HALFPAD : Nat := 3

/-- Conversion of a C `int` value to the `uint16_t` actually passed to a
function expecting `uint16_t` (reduction mod 2^16). -/
def u16ofInt (i : Int) : Nat := (i % 65536).toNat

/-- Modelled from the spec: `getXres()` is declared in videoutil.h
("get X resolution / max pixel count") but its definition is absent from
the sources; following the spec's use of `(getXres()+1)/2` as the
horizontal midpoint of a `W`-pixel field, it returns the stored
`horisontalPixels` value (the maximal X pixel index, `W-1`). -/
def getXres (s : VState) : Nat := s.horisontalPixels

/-- State of the ponggame.c module: the framebuffer state plus the
global game variables. -/
structure GameState where
  vs : VState
  curRightPadCenter : Nat
  curLeftPadCenter : Nat
  leftScore : Nat
  rightScore : Nat
  scoringFlag : Nat
  ballX0 : Int
  ballY0 : Int
  ballX1 : Int
  ballY1 : Int
  dx : Int
  sx : Int
  dy : Int
  sy : Int
  err : Int
  serveOffset : Int
  serveDir : Nat
  ballSkipCycles : Nat
  serveFlag : Nat

/-- Right-paddle movement step of `game()`: move the current center one
pixel toward the target, redrawing the two end pixels with `pflip`
(paddle column `RPADCOL`); `curRightPadCenter` is a `uint8_t`. -/
def moveRightPaddle (rightPadTarget : Nat) (g : GameState) : GameState :=
  let p : VState × Nat :=
    if rightPadTarget < g.curRightPadCenter then
      let v1 := pflip g.vs (u16ofInt RPADCOL) (g.curRightPadCenter + HALFPAD)
      let c := (g.curRightPadCenter + 255) % 256
      (pflip v1 (u16ofInt RPADCOL) (u16ofInt ((c : Int) - (HALFPAD : Int))), c)
    else if g.curRightPadCenter < rightPadTarget then
      let v1 := pflip g.vs (u16ofInt RPADCOL) (u16ofInt ((g.curRightPadCenter : Int) - (HALFPAD : Int)))
      let c := (g.curRightPadCenter + 1) % 256
      (pflip v1 (u16ofInt RPADCOL) (c + HALFPAD), c)
    else (g.vs, g.curRightPadCenter)
  { g with vs := p.1, curRightPadCenter := p.2 }

/-- Left-paddle movement step of `game()` (paddle column `LPADCOL`). -/
def moveLeftPaddle (leftPadTarget : Nat) (g : GameState) : GameState :=
  let p : VState × Nat :=
    if leftPadTarget < g.curLeftPadCenter then
      let v1 := pflip g.vs (u16ofInt LPADCOL) (g.curLeftPadCenter + HALFPAD)
      let c := (g.curLeftPadCenter + 255) % 256
      (pflip v1 (u16ofInt LPADCOL) (u16ofInt ((c : Int) - (HALFPAD : Int))), c)
    else if g.curLeftPadCenter < leftPadTarget then
      let v1 := pflip g.vs (u16ofInt LPADCOL) (u16ofInt ((g.curLeftPadCenter : Int) - (HALFPAD : Int)))
      let c := (g.curLeftPadCenter + 1) % 256
      (pflip v1 (u16ofInt LPADCOL) (c + HALFPAD), c)
    else (g.vs, g.curLeftPadCenter)
  { g with vs := p.1, curLeftPadCenter := p.2 }

/-- The `switch (serveFlag)` of `game()`: collision/serve handling on a
ball-advance invocation.  `Int.tdiv` models C's truncating division in
the trajectory recomputations. -/
def serveSwitch (g : GameState) : GameState :=
  if g.serveFlag = NOSERVE then
    if g.ballX0 = RPADCOL + 1 then
      { g with vs := preset g.vs (u16ofInt g.ballX0) (u16ofInt g.ballY0),
               scoringFlag := LEFT, serveFlag := LEFTSERVE }
    else if g.ballX0 = LPADCOL - 1 then
      { g with vs := preset g.vs (u16ofInt g.ballX0) (u16ofInt g.ballY0),
               scoringFlag := RIGHT, serveFlag := RIGHTSERVE }
    else if g.ballX0 = LPADCOL + 1 ∧ g.ballY0 ≤ (g.curLeftPadCenter : Int) + (HALFPAD : Int) ∧
        (g.curLeftPadCenter : Int) - (HALFPAD : Int) ≤ g.ballY0 then
      let x0 := g.ballX0 - g.sx
      let y0 := g.ballY0 + g.sy
      let y1 : Int := if g.sy = 1 then BOTTOM - 1 else TOP + 1
      let x1 := x0 + Int.tdiv (-1 * g.sx * |y0 - y1| * g.dx) g.dy
      { g with ballX0 := x0, ballY0 := y0, ballX1 := x1, ballY1 := y1,
               dx := |x1 - x0|, sx := if x0 < x1 then 1 else -1,
               dy := |y1 - y0|, sy := if y0 < y1 then 1 else -1,
               err := Int.tdiv (if |y1 - y0| < |x1 - x0| then |x1 - x0| else -|y1 - y0|) 2,
               serveFlag := NOSERVE }
    else if g.ballX0 = RPADCOL - 1 ∧ g.ballY0 ≤ (g.curRightPadCenter : Int) + (HALFPAD : Int) ∧
        (g.curRightPadCenter : Int) - (HALFPAD : Int) ≤ g.ballY0 then
      let x0 := g.ballX0 - g.sx
      let y0 := g.ballY0 + g.sy
      let y1 : Int := if g.sy = 1 then BOTTOM - 1 else TOP + 1
      let x1 := x0 + Int.tdiv (-1 * g.sx * |y0 - y1| * g.dx) g.dy
      { g with ballX0 := x0, ballY0 := y0, ballX1 := x1, ballY1 := y1,
               dx := |x1 - x0|, sx := if x0 < x1 then 1 else -1,
               dy := |y1 - y0|, sy := if y0 < y1 then 1 else -1,
               err := Int.tdiv (if |y1 - y0| < |x1 - x0| then |x1 - x0| else -|y1 - y0|) 2,
               serveFlag := NOSERVE }
    else if g.ballY0 = TOP + 1 ∨ g.ballY0 = BOTTOM - 1 then
      let x0 := g.ballX0 + g.sx
      let y0 := g.ballY0 - g.sy
      let x1 : Int := if g.sx = 1 then RPADCOL + 1 else LPADCOL - 1
      let y1 := y0 + Int.tdiv (-1 * g.sy * |x0 - x1| * g.dy) g.dx
      { g with ballX0 := x0, ballY0 := y0, ballX1 := x1, ballY1 := y1,
               dx := |x1 - x0|, sx := if x0 < x1 then 1 else -1,
               dy := |y1 - y0|, sy := if y0 < y1 then 1 else -1,
               err := Int.tdiv (if |y1 - y0| < |x1 - x0| then |x1 - x0| else -|y1 - y0|) 2,
               serveFlag := NOSERVE }
    else g
  else if g.serveFlag = RIGHTSERVE then
    let x0 : Int := RPADCOL - 1
    let y0 : Int := g.curRightPadCenter
    let x1 : Int := (getXres g.vs / 2 : Nat) + g.serveOffset
    let y1 : Int := if g.serveDir = UP then TOP + 1 else BOTTOM - 1
    { g with ballX0 := x0, ballY0 := y0, ballX1 := x1, ballY1 := y1,
             dx := |x1 - x0|, sx := if x0 < x1 then 1 else -1,
             dy := |y1 - y0|, sy := if y0 < y1 then 1 else -1,
             err := Int.tdiv (if |y1 - y0| < |x1 - x0| then |x1 - x0| else -|y1 - y0|) 2,
             scoringFlag := NONE, serveFlag := NOSERVE }
  else if g.serveFlag = LEFTSERVE then
    let x0 : Int := LPADCOL + 1
    let y0 : Int := g.curLeftPadCenter
    let x1 : Int := (getXres g.vs / 2 : Nat) + g.serveOffset
    let y1 : Int := if g.serveDir = UP then TOP + 1 else BOTTOM - 1
    { g with ballX0 := x0, ballY0 := y0, ballX1 := x1, ballY1 := y1,
             dx := |x1 - x0|, sx := if x0 < x1 then 1 else -1,
             dy := |y1 - y0|, sy := if y0 < y1 then 1 else -1,
             err := Int.tdiv (if |y1 - y0| < |x1 - x0| then |x1 - x0| else -|y1 - y0|) 2,
             scoringFlag := NONE, serveFlag := NOSERVE }
  else g

/-- The incremental Bresenham step at the end of the ball-advance block
of `game()`. -/
def bresenhamStep (g : GameState) : GameState :=
  let e2 := g.err
  let p1 : Int × Int :=
    if -g.dx < e2 then (g.err - g.dy, g.ballX0 + g.sx) else (g.err, g.ballX0)
  let p2 : Int × Int :=
    if e2 < g.dy then (p1.1 + g.dx, g.ballY0 + g.sy) else (p1.1, g.ballY0)
  { g with err := p2.1, ballX0 := p1.2, ballY0 := p2.2 }

/-- The `switch (scoringFlag)` of `game()`: bump the scorer's counter
(`uint8_t`, reset on reaching 10) and redraw the score glyph. -/
def scoreUpdate (g : GameState) : GameState :=
  let p : Nat × Nat × VState :=
    if g.scoringFlag = RIGHT then
      let rs0 := (g.rightScore + 1) % 256
      let rs := if rs0 = 10 then 0 else rs0
      (g.leftScore, rs, writechar g.vs (u16ofInt (((getXres g.vs + 1) / 2 : Nat) + RIGHTSCORE)) 3 ((48 + rs) % 256))
    else if g.scoringFlag = LEFT then
      let ls0 := (g.leftScore + 1) % 256
      let ls := if ls0 = 10 then 0 else ls0
      (ls, g.rightScore, writechar g.vs (u16ofInt (((getXres g.vs + 1) / 2 : Nat) + LEFTSCORE)) 3 ((48 + ls) % 256))
    else (g.leftScore, g.rightScore, g.vs)
  { g with leftScore := p.1, rightScore := p.2.1, vs := p.2.2 }

/-- The ball-advance block of `game()` (executed when the skip-cycle
counter reaches `BALLVELOCITY`), after `ballSkipCycles` has been reset:
erase the ball, advance the serve-angle offset and serve direction,
run the serve/collision switch, take one Bresenham step, redraw the
ball unless a serve transition is pending, and update the score. -/
def ballAdvance (g : GameState) : GameState :=
  let v := pflip g.vs (u16ofInt g.ballX0) (u16ofInt g.ballY0)
  let so0 := g.serveOffset + 1
  let so := if SERVECYCLE < so0 then -SERVECYCLE else so0
  let sd := if g.serveDir = UP then DOWN else UP
  let g1 := serveSwitch { g with vs := v, serveOffset := so, serveDir := sd }
  let g2 := bresenhamStep g1
  let g3 := if g2.serveFlag = NOSERVE then
      { g2 with vs := pflip g2.vs (u16ofInt g2.ballX0) (u16ofInt g2.ballY0) }
    else g2
  scoreUpdate g3

/-- The ball-movement phase of `game()`: increment the `uint8_t`
skip-cycle counter and advance the ball only when it reaches
`BALLVELOCITY`. -/
def ballPhase (g : GameState) : GameState :=
  let c := (g.ballSkipCycles + 1) % 256
  if c = BALLVELOCITY then ballAdvance { g with ballSkipCycles := 0 }
  else { g with ballSkipCycles := c }

/-- `game()` from ponggame.c for one invocation, taking the two paddle
ADC readings (`uint8_t`) as inputs: scale the readings to paddle
targets, move both paddles, then run the ball-movement phase.  (The ADC
sampling itself and the trailing `activeFunction = &idle` hook are
hardware/scheduler effects outside this state.) -/
def game (rightPaddle leftPaddle : Nat) (g : GameState) : GameState :=
  let rightPadTarget := rightPaddle / 5 + 5
  let leftPadTarget := leftPaddle / 5 + 5
  ballPhase (moveLeftPaddle leftPadTarget (moveRightPaddle rightPadTarget g))

/-! ### Claims about the game() state machine -/

lemma moveRightPaddle_self (g : GameState) :
    moveRightPaddle g.curRightPadCenter g = g := by
  unfold moveRightPaddle
  simp

lemma moveLeftPaddle_self (g : GameState) :
    moveLeftPaddle g.curLeftPadCenter g = g := by
  unfold moveLeftPaddle
  simp

/-- Claim C1 (amended): on a ball-advance invocation of `game()` in the
`NOSERVE` state, a ball at the miss column behind the right paddle
(`RPADCOL+1`) increments the left score exactly once (`uint8_t`
increment, reset to 0 on reaching 10, so 9 wraps to 0) and sets the
serve state to `LEFTSERVE` — the next serve originates from the
*scoring* player's paddle, not (as the claim says) the loser's; the
miss at `LPADCOL-1` is symmetric (right score, `RIGHTSERVE`).  On the
subsequent serve invocation no score counter changes, so each miss
scores exactly once. -/
theorem c1_scoring (rightPaddle leftPaddle : Nat) (g : GameState)
    (hadv : g.ballSkipCycles = 2) :
    (g.serveFlag = NOSERVE → g.ballX0 = RPADCOL + 1 →
      (game rightPaddle leftPaddle g).leftScore =
        (if (g.leftScore + 1) % 256 = 10 then 0 else (g.leftScore + 1) % 256) ∧
      (game rightPaddle leftPaddle g).rightScore = g.rightScore ∧
      (game rightPaddle leftPaddle g).serveFlag = LEFTSERVE ∧
      (game rightPaddle leftPaddle g).scoringFlag = LEFT) ∧
    (g.serveFlag = NOSERVE → g.ballX0 = LPADCOL - 1 →
      (game rightPaddle leftPaddle g).rightScore =
        (if (g.rightScore + 1) % 256 = 10 then 0 else (g.rightScore + 1) % 256) ∧
      (game rightPaddle leftPaddle g).leftScore = g.leftScore ∧
      (game rightPaddle leftPaddle g).serveFlag = RIGHTSERVE ∧
      (game rightPaddle leftPaddle g).scoringFlag = RIGHT) ∧
    (g.serveFlag = RIGHTSERVE →
      (game rightPaddle leftPaddle g).leftScore = g.leftScore ∧
      (game rightPaddle leftPaddle g).rightScore = g.rightScore ∧
      (game rightPaddle leftPaddle g).serveFlag = NOSERVE ∧
      (game rightPaddle leftPaddle g).scoringFlag = NONE) ∧
    (g.serveFlag = LEFTSERVE →
      (game rightPaddle leftPaddle g).leftScore = g.leftScore ∧
      (game rightPaddle leftPaddle g).rightScore = g.rightScore ∧
      (game rightPaddle leftPaddle g).serveFlag = NOSERVE ∧
      (game rightPaddle leftPaddle g).scoringFlag = NONE) := by
  refine ⟨fun h0 h1 => ?_, fun h0 h1 => ?_, fun h0 => ?_, fun h0 => ?_⟩ <;>
    first
    | simp [game, ballPhase, ballAdvance, serveSwitch, bresenhamStep, scoreUpdate,
        moveRightPaddle, moveLeftPaddle, hadv, h0, h1, NOSERVE, LEFTSERVE,
        RIGHTSERVE, BALLVELOCITY, LEFT, RIGHT, NONE, RPADCOL, LPADCOL]
    | simp [game, ballPhase, ballAdvance, serveSwitch, bresenhamStep, scoreUpdate,
        moveRightPaddle, moveLeftPaddle, hadv, h0, NOSERVE, LEFTSERVE,
        RIGHTSERVE, BALLVELOCITY, LEFT, RIGHT, NONE, RPADCOL, LPADCOL]

/-- A concrete game state in the `NOSERVE` state, one ball-advance away
from a miss at the right back-wall column `RPADCOL+1 = 2`. -/
def testMiss : GameState :=
  { vs := videoinit (fun _ => 0) 88 60, curRightPadCenter := 29, curLeftPadCenter := 29,
    leftScore := 0, rightScore := 0, scoringFlag := 0,
    ballX0 := 2, ballY0 := 30, ballX1 := 0, ballY1 := 40,
    dx := 40, sx := -1, dy := 10, sy := 1, err := 20,
    serveOffset := 0, serveDir := 0, ballSkipCycles := 2, serveFlag := 0 }

/-- Claim C1 (counterexample): after the miss at the right back wall the
left score is incremented, but the serve state is `LEFTSERVE` (= 2), not
`RIGHTSERVE` as the claim requires; running the following invocations up
to the serve places the newly served ball at column 86, adjacent to the LEFT
paddle column `LPADCOL = 86`, not at the right paddle. -/
theorem c1_counterexample :
    (game 120 120 testMiss).leftScore = 1 ∧
    (game 120 120 testMiss).serveFlag = LEFTSERVE ∧
    LEFTSERVE ≠ RIGHTSERVE ∧
    (game 120 120 (game 120 120 (game 120 120 (game 120 120 testMiss)))).ballX0 = LPADCOL ∧
    ¬ ((game 120 120 (game 120 120 (game 120 120 (game 120 120 testMiss)))).ballX0 ≤ RPADCOL + 1) :=
  ⟨rfl, rfl, by decide, rfl, by decide⟩

/-- Claim C1 (witness): with the left score at 9, the miss invocation
wraps it to 0 and sets serve-from-left. -/
theorem c1_scoring_witness :
    (game 120 120 { testMiss with leftScore := 9 }).leftScore = 0 ∧
    (game 120 120 { testMiss with leftScore := 9 }).serveFlag = LEFTSERVE := by
  have h := (c1_scoring 120 120 { testMiss with leftScore := 9 } rfl).1 rfl rfl
  exact ⟨by rw [h.1]; rfl, h.2.2.1⟩

/-- Claim C6 (amended): on a ball-advance invocation of `game()` in the
`NOSERVE` state (with both paddles already on target, so the centers are
unchanged this invocation):
* a ball at a paddle column within that paddle's vertical span gets a
  recomputed target row of `BOTTOM-1` when the incoming vertical step is
  `+1` and `TOP+1` otherwise — the top/bottom target is selected by the
  incoming vertical direction, as the claim states;
* a ball at the top or bottom wall gets the recomputed target column
  `RPADCOL+1` when the incoming horizontal step is `+1` and `LPADCOL-1`
  otherwise.  With the repository's paddle columns (`RPADCOL = 1`,
  `LPADCOL = 86`) this target lies on the side the ball came from, so
  for interior ball positions the recomputed horizontal step sign is the
  REVERSE of the incoming one (last conjunct), not a reuse of it as the
  claim states. -/
theorem c6_reflection (rightPaddle leftPaddle : Nat) (g : GameState)
    (hadv : g.ballSkipCycles = 2) (h0 : g.serveFlag = NOSERVE)
    (hR : g.curRightPadCenter = rightPaddle / 5 + 5)
    (hL : g.curLeftPadCenter = leftPaddle / 5 + 5) :
    (g.ballX0 = LPADCOL + 1 →
      g.ballY0 ≤ (g.curLeftPadCenter : Int) + (HALFPAD : Int) →
      (g.curLeftPadCenter : Int) - (HALFPAD : Int) ≤ g.ballY0 →
      (game rightPaddle leftPaddle g).ballY1 =
        (if g.sy = 1 then BOTTOM - 1 else TOP + 1)) ∧
    (g.ballX0 = RPADCOL - 1 →
      g.ballY0 ≤ (g.curRightPadCenter : Int) + (HALFPAD : Int) →
      (g.curRightPadCenter : Int) - (HALFPAD : Int) ≤ g.ballY0 →
      (game rightPaddle leftPaddle g).ballY1 =
        (if g.sy = 1 then BOTTOM - 1 else TOP + 1)) ∧
    (g.ballX0 ≠ RPADCOL + 1 → g.ballX0 ≠ LPADCOL - 1 → g.ballX0 ≠ LPADCOL + 1 →
      g.ballX0 ≠ RPADCOL - 1 →
      (g.ballY0 = TOP + 1 ∨ g.ballY0 = BOTTOM - 1) →
      (game rightPaddle leftPaddle g).ballX1 =
        (if g.sx = 1 then RPADCOL + 1 else LPADCOL - 1)) ∧
    (g.ballX0 ≠ RPADCOL + 1 → g.ballX0 ≠ LPADCOL - 1 → g.ballX0 ≠ LPADCOL + 1 →
      g.ballX0 ≠ RPADCOL - 1 →
      (g.ballY0 = TOP + 1 ∨ g.ballY0 = BOTTOM - 1) →
      g.sx = 1 → RPADCOL + 1 < g.ballX0 + 1 →
      (game rightPaddle leftPaddle g).sx = -1) := by
  have e1 : moveRightPaddle (rightPaddle / 5 + 5) g = g := by
    rw [← hR]; exact moveRightPaddle_self g
  have e2 : moveLeftPaddle (leftPaddle / 5 + 5) g = g := by
    rw [← hL]; exact moveLeftPaddle_self g
  have egame : game rightPaddle leftPaddle g = ballPhase g := by
    simp only [game]; rw [e1, e2]
  rw [egame]
  refine ⟨fun h1 h2 h3 => ?_, fun h1 h2 h3 => ?_, fun h1 h2 h3 h4 h5 => ?_,
    fun h1 h2 h3 h4 h5 h6 h7 => ?_⟩
  · have h2a : g.ballY0 ≤ (g.curLeftPadCenter : Int) + 3 := by
      simp only [HALFPAD] at h2; omega
    have h3a : (g.curLeftPadCenter : Int) ≤ g.ballY0 + 3 := by
      simp only [HALFPAD] at h3; omega
    simp [ballPhase, ballAdvance, serveSwitch, bresenhamStep, scoreUpdate,
      hadv, h0, h1, h2a, h3a, NOSERVE, LEFTSERVE, RIGHTSERVE, BALLVELOCITY,
      HALFPAD, TOP, BOTTOM, RPADCOL, LPADCOL]
  · have h2a : g.ballY0 ≤ (g.curRightPadCenter : Int) + 3 := by
      simp only [HALFPAD] at h2; omega
    have h3a : (g.curRightPadCenter : Int) ≤ g.ballY0 + 3 := by
      simp only [HALFPAD] at h3; omega
    simp [ballPhase, ballAdvance, serveSwitch, bresenhamStep, scoreUpdate,
      hadv, h0, h1, h2a, h3a, NOSERVE, LEFTSERVE, RIGHTSERVE, BALLVELOCITY,
      HALFPAD, TOP, BOTTOM, RPADCOL, LPADCOL]
  · have h1a : g.ballX0 ≠ 2 := by simp only [RPADCOL] at h1; omega
    have h2a : g.ballX0 ≠ 85 := by simp only [LPADCOL] at h2; omega
    have h3a : g.ballX0 ≠ 87 := by simp only [LPADCOL] at h3; omega
    have h4a : g.ballX0 ≠ 0 := by simp only [RPADCOL] at h4; omega
    have h5a : g.ballY0 = 2 ∨ g.ballY0 = 58 := by
      simp only [TOP, BOTTOM] at h5; omega
    simp [ballPhase, ballAdvance, serveSwitch, bresenhamStep, scoreUpdate,
      hadv, h0, h1a, h2a, h3a, h4a, h5a, NOSERVE, LEFTSERVE, RIGHTSERVE,
      BALLVELOCITY, HALFPAD, TOP, BOTTOM, RPADCOL, LPADCOL]
  · have h1a : g.ballX0 ≠ 2 := by simp only [RPADCOL] at h1; omega
    have h2a : g.ballX0 ≠ 85 := by simp only [LPADCOL] at h2; omega
    have h3a : g.ballX0 ≠ 87 := by simp only [LPADCOL] at h3; omega
    have h4a : g.ballX0 ≠ 0 := by simp only [RPADCOL] at h4; omega
    have h5a : g.ballY0 = 2 ∨ g.ballY0 = 58 := by
      simp only [TOP, BOTTOM] at h5; omega
    have h7a : ¬ (g.ballX0 + 1 < 2) := by simp only [RPADCOL] at h7; omega
    simp [ballPhase, ballAdvance, serveSwitch, bresenhamStep, scoreUpdate,
      hadv, h0, h1a, h2a, h3a, h4a, h5a, h6, h7a, NOSERVE, LEFTSERVE, RIGHTSERVE,
      BALLVELOCITY, HALFPAD, TOP, BOTTOM, RPADCOL, LPADCOL]

/-- A concrete game state with the ball in the field interior at the top
wall, moving with horizontal step `+1`. -/
def testWall : GameState :=
  { vs := videoinit (fun _ => 0) 88 60, curRightPadCenter := 29, curLeftPadCenter := 29,
    leftScore := 0, rightScore := 0, scoringFlag := 0,
    ballX0 := 40, ballY0 := 2, ballX1 := 85, ballY1 := 40,
    dx := 45, sx := 1, dy := 38, sy := -1, err := 22,
    serveOffset := 0, serveDir := 0, ballSkipCycles := 2, serveFlag := 0 }

/-- Claim C6 (counterexample): at a top-wall reflection with incoming
horizontal step `+1` and the ball at column 40, the recomputed target
column is 2 — behind the ball — so the trajectory recomputation does not
reuse the incoming horizontal direction: the recomputed horizontal step
is `-1`. -/
theorem c6_counterexample :
    testWall.sx = 1 ∧ testWall.ballX0 = 40 ∧ testWall.ballY0 = TOP + 1 ∧
    (game 120 120 testWall).ballX1 = 2 ∧
    ¬ (testWall.ballX0 < (game 120 120 testWall).ballX1) ∧
    (game 120 120 testWall).sx = -1 :=
  ⟨rfl, rfl, rfl, rfl, by decide, rfl⟩

/-- A concrete game state with the ball at the left paddle column inside
the paddle span, moving downward. -/
def testPad : GameState :=
  { vs := videoinit (fun _ => 0) 88 60, curRightPadCenter := 29, curLeftPadCenter := 29,
    leftScore := 0, rightScore := 0, scoringFlag := 0,
    ballX0 := 87, ballY0 := 30, ballX1 := 85, ballY1 := 40,
    dx := 45, sx := 1, dy := 38, sy := 1, err := 22,
    serveOffset := 0, serveDir := 0, ballSkipCycles := 2, serveFlag := 0 }

/-- Claim C6 (witness): a paddle hit with incoming vertical step `+1`
retargets the trajectory at the bottom wall row `BOTTOM-1 = 58`. -/
theorem c6_reflection_witness :
    (game 120 120 testPad).ballY1 = BOTTOM - 1 := by
  have h := (c6_reflection 120 120 testPad rfl rfl rfl rfl).1 rfl
    (by decide) (by decide)
  rw [h]
  rfl

/-! ### pong.c : scan-line sync state machine and renderer -/

/-- `FIRSTLINE` from pong.c. -/
def FIRSTLINE : Nat := 1
/-- `LASTLINE` from pong.c. -/
def LASTLINE : Nat := 262
/-- `STARTRENDER` from pong.c. -/
def STARTRENDER : Nat := 20
/-- `STOPRENDER` from pong.c. -/
def STOPRENDER : Nat := 261
/-- `RENDERREP` from pong.c. -/
def RENDERREP : Nat := 5
/-- `PIXELBYTES` from pong.c. -/
def PIXELBYTES : Nat := 10
/-- `TEMPPIXBYTES` from pong.c. -/
def TEMPPIXBYTES : Nat := 20
/-- `VIDEORAM` from pong.c (computed from `RENDERREP`; not used by the
renderer). -/
def VIDEORAM : Nat := ((STOPRENDER - STARTRENDER + 1) * PIXELBYTES) / RENDERREP

/-- The `video[TEMPPIXBYTES]` data array from pong.c (all bytes 0x55). -/
def video : List Nat :=
  [0x55, 0x55, 0x55, 0x55, 0x55, 0x55, 0x55, 0x55, 0x55, 0x55,
   0x55, 0x55, 0x55, 0x55, 0x55, 0x55, 0x55, 0x55, 0x55, 0x55]

/-- The possible values of the `syncHandler` function pointer in pong.c. -/
inductive Handler where
  | equalizing : Handler
  | vsync : Handler
  | hsync : Handler
deriving DecidableEq

/-- State of the pong.c main loop: the globals `scanLine` (`uint16_t`),
`halfLineCounter` (`uint8_t`), the `syncHandler` function pointer and
the `skipRendering` flag. -/
structure PState where
  scanLine : Nat
  halfLineCounter : Nat
  syncHandler : Handler
  skipRendering : Bool
deriving DecidableEq

/-- `equalizing()` from pong.c (state part): increment the half-line
counter, bump `scanLine` on every second invocation, and switch the
handler at scan lines 4 (to `vsync`) and 10 (to `hsync`). -/
def equalizing (s : PState) : PState :=
  let h0 := (s.halfLineCounter + 1) % 256
  let p : Nat × Nat :=
    if h0 = 2 then ((s.scanLine + 1) % 65536, 0) else (s.scanLine, h0)
  let hd := if p.1 = 4 then Handler.vsync
    else if p.1 = 10 then Handler.hsync else s.syncHandler
  { s with scanLine := p.1, halfLineCounter := p.2, syncHandler := hd }

/-- `vsync()` from pong.c (state part): like `equalizing` but switching
back to `equalizing` at scan line 7. -/
def vsync (s : PState) : PState :=
  let h0 := (s.halfLineCounter + 1) % 256
  let p : Nat × Nat :=
    if h0 = 2 then ((s.scanLine + 1) % 65536, 0) else (s.scanLine, h0)
  let hd := if p.1 = 7 then Handler.equalizing else s.syncHandler
  { s with scanLine := p.1, halfLineCounter := p.2, syncHandler := hd }

/-- `hsync()` from pong.c (state part): enable rendering exactly when the
current scan line lies in `[STARTRENDER, STOPRENDER]`, increment the
scan line, and at the end of the field (`scanLine > LASTLINE`) wrap to
`FIRSTLINE`, hand back to `equalizing` and disable rendering. -/
def hsync (s : PState) : PState :=
  let skip := if s.scanLine < STARTRENDER ∨ STOPRENDER < s.scanLine then true else false
  let sl := (s.scanLine + 1) % 65536
  if LASTLINE < sl then
    { s with syncHandler := Handler.equalizing, scanLine := FIRSTLINE,
             skipRendering := true }
  else
    { s with scanLine := sl, skipRendering := skip }

/-- Dispatch through the `syncHandler` function pointer. -/
def stepState (s : PState) : PState :=
  match s.syncHandler with
  | Handler.equalizing => equalizing s
  | Handler.vsync => vsync s
  | Handler.hsync => hsync s

/-- `renderer()` from pong.c: if rendering is enabled, the bytes pushed
through the UART data register — a stuffing zero, the `PIXELBYTES` video
buffer bytes, and a trailing stuffing zero; otherwise nothing (the video
buffer is not read). -/
def renderer (s : PState) : List Nat :=
  if s.skipRendering then []
  else 0 :: ((List.range PIXELBYTES).map (fun i => video.getD i 0) ++ [0])

/-- One iteration of the main event loop of pong.c: run the current sync
handler, then the renderer; result state plus the bytes transmitted. -/
def tick (s : PState) : PState × List Nat :=
  (stepState s, renderer (stepState s))

/-- The initial state set up by `main()` in pong.c. -/
def pInit : PState :=
  { scanLine := FIRSTLINE, halfLineCounter := 0,
    syncHandler := Handler.equalizing, skipRendering := true }

/-- The states reachable by the main event loop from the initial state. -/
inductive Reachable : PState → Prop where
  | init : Reachable pInit
  | step {s : PState} : Reachable s → Reachable (stepState s)

/-- Inductive invariant of the main loop: each handler runs in its scan
line window, the half-line counter stays in {0,1}, and rendering is
disabled whenever the half-line handlers are active. -/
def Inv (s : PState) : Prop :=
  s.halfLineCounter ≤ 1 ∧
  match s.syncHandler with
  | Handler.equalizing => 1 ≤ s.scanLine ∧ s.scanLine ≤ 9 ∧ s.skipRendering = true
  | Handler.vsync => 4 ≤ s.scanLine ∧ s.scanLine ≤ 6 ∧ s.skipRendering = true
  | Handler.hsync => 10 ≤ s.scanLine ∧ s.scanLine ≤ 262

lemma inv_init : Inv pInit := by
  constructor <;> simp [pInit, FIRSTLINE]

lemma inv_step (s : PState) (h : Inv s) : Inv (stepState s) := by
  obtain ⟨sl, hl, hd, sk⟩ := s
  obtain ⟨h1, h2⟩ := h
  simp only at h1
  cases hd with
  | equalizing =>
    simp only [Inv] at h2
    obtain ⟨ha, hb, hc⟩ := h2
    simp only [stepState, equalizing, Inv]
    split_ifs with hh <;> simp_all <;> omega
  | vsync =>
    simp only [Inv] at h2
    obtain ⟨ha, hb, hc⟩ := h2
    simp only [stepState, vsync, Inv]
    split_ifs with hh <;> simp_all <;> omega
  | hsync =>
    simp only [Inv] at h2
    obtain ⟨ha, hb⟩ := h2
    simp only [stepState, hsync, Inv, FIRSTLINE, LASTLINE, STARTRENDER, STOPRENDER]
    split_ifs with hh <;> simp_all <;> omega

lemma reachable_inv (s : PState) (hr : Reachable s) : Inv s := by
  induction hr with
  | init => exact inv_init
  | step _ ih => exact inv_step _ ih

lemma reachable_iterate (n : Nat) : Reachable (stepState^[n] pInit) := by
  induction n with
  | zero => exact Reachable.init
  | succ n ih =>
    rw [Function.iterate_succ_apply']
    exact Reachable.step ih

set_option maxRecDepth 100000 in
/-- Claim C2 (counterexample): the scan-line counter is NOT incremented
on every invocation of the active sync handler — the first invocation
(an `equalizing` half-line tick from the initial state) leaves it at 1 —
and at the end of a field it wraps to `FIRSTLINE = 1`, not to 0
(reachable concretely after 271 invocations). -/
theorem c2_counterexample :
    pInit.scanLine = 1 ∧
    (stepState pInit).scanLine = pInit.scanLine ∧
    (stepState pInit).scanLine ≠ pInit.scanLine + 1 ∧
    (stepState^[270] pInit).scanLine = LASTLINE ∧
    (stepState^[271] pInit).scanLine = FIRSTLINE ∧ FIRSTLINE ≠ 0 :=
  ⟨rfl, rfl, by decide, by decide, by decide, by decide⟩

/-- Claim C2 (amended): in every reachable state the scan-line counter
lies in `[FIRSTLINE, LASTLINE]`; the half-line handlers (`equalizing`,
`vsync`) increment it exactly once per TWO invocations (on the
invocation whose half-line counter is 1), `hsync` increments it once per
invocation, and at the end of a field (`scanLine = LASTLINE` in `hsync`)
it wraps to `FIRSTLINE = 1` — so the counter cycles through the 262
line values `1..262` per field. -/
theorem c2_scanline_counter (s : PState) (hr : Reachable s) :
    (FIRSTLINE ≤ s.scanLine ∧ s.scanLine ≤ LASTLINE) ∧
    ((s.syncHandler = Handler.equalizing ∨ s.syncHandler = Handler.vsync) →
      (s.halfLineCounter = 1 →
        (stepState s).scanLine = s.scanLine + 1 ∧
        (stepState s).halfLineCounter = 0) ∧
      (s.halfLineCounter = 0 →
        (stepState s).scanLine = s.scanLine ∧
        (stepState s).halfLineCounter = 1)) ∧
    (s.syncHandler = Handler.hsync →
      (stepState s).scanLine =
        (if s.scanLine = LASTLINE then FIRSTLINE else s.scanLine + 1)) := by
  have hinv := reachable_inv s hr
  obtain ⟨sl, hl, hd, sk⟩ := s
  obtain ⟨h1, h2⟩ := hinv
  cases hd with
  | equalizing =>
    simp only [Inv] at h2
    refine ⟨by simp only [FIRSTLINE, LASTLINE]; omega,
      fun _ => ⟨fun hh => ?_, fun hh => ?_⟩, by simp⟩
    · subst hh
      constructor <;> simp [stepState, equalizing] <;> omega
    · subst hh
      constructor <;> simp [stepState, equalizing]
  | vsync =>
    simp only [Inv] at h2
    refine ⟨by simp only [FIRSTLINE, LASTLINE]; omega,
      fun _ => ⟨fun hh => ?_, fun hh => ?_⟩, by simp⟩
    · subst hh
      constructor <;> simp [stepState, vsync] <;> omega
    · subst hh
      constructor <;> simp [stepState, vsync]
  | hsync =>
    simp only [Inv] at h2
    refine ⟨by simp only [FIRSTLINE, LASTLINE]; omega,
      by simp, fun _ => ?_⟩
    simp only [stepState, hsync, FIRSTLINE, LASTLINE, STARTRENDER, STOPRENDER]
    split_ifs <;> simp_all <;> omega

/-- Claim C2 (witness): at the initial state (`equalizing` handler), the
first invocation leaves the counter unchanged and the second increments
it — one increment per two half-line invocations. -/
theorem c2_scanline_counter_witness :
    (stepState pInit).scanLine = pInit.scanLine ∧
    (stepState (stepState pInit)).scanLine = pInit.scanLine + 1 := by
  have h1 := (c2_scanline_counter pInit Reachable.init).2.1 (Or.inl rfl)
  have h2 := (c2_scanline_counter (stepState pInit)
    (Reachable.step Reachable.init)).2.1 (Or.inl rfl)
  refine ⟨(h1.2 rfl).1, ?_⟩
  rw [(h2.1 rfl).1, (h1.2 rfl).1]

/-- Claim C8: in every reachable state of the main event loop, an
iteration that transmits any byte (the renderer reading the video
buffer) is one whose scan line lies within `[STARTRENDER, STOPRENDER]`;
during all other scan lines the renderer transmits nothing and never
reads the buffer. -/
theorem c8_active_window (s : PState) (hr : Reachable s)
    (hout : (tick s).2 ≠ []) :
    STARTRENDER ≤ s.scanLine ∧ s.scanLine ≤ STOPRENDER := by
  have hinv := reachable_inv s hr
  have hskip : (stepState s).skipRendering = false := by
    by_contra hc
    refine hout ?_
    have ht : (stepState s).skipRendering = true := by
      cases hb : (stepState s).skipRendering
      · exact absurd hb hc
      · rfl
    simp [tick, renderer, ht]
  obtain ⟨sl, hl, hd, sk⟩ := s
  obtain ⟨h1, h2⟩ := hinv
  cases hd with
  | equalizing =>
    simp only [Inv] at h2
    obtain ⟨-, -, hc⟩ := h2
    subst hc
    simp [stepState, equalizing] at hskip
  | vsync =>
    simp only [Inv] at h2
    obtain ⟨-, -, hc⟩ := h2
    subst hc
    simp [stepState, vsync] at hskip
  | hsync =>
    simp only [Inv] at h2
    simp only [stepState, hsync, FIRSTLINE, LASTLINE, STARTRENDER,
      STOPRENDER] at hskip ⊢
    split_ifs at hskip with hw hc
    all_goals first
      | (push_neg at hc; omega)
      | simp at hskip

set_option maxRecDepth 100000 in
/-- Claim C8 (witness): the 29th loop iteration — the first to transmit
(scan line 20 = `STARTRENDER`) — lies inside the active window. -/
theorem c8_active_window_witness :
    STARTRENDER ≤ (stepState^[28] pInit).scanLine ∧
    (stepState^[28] pInit).scanLine ≤ STOPRENDER :=
  c8_active_window (stepState^[28] pInit) (reachable_iterate 28) (by decide)

/-- Modelled from the spec (refinement comparison for claim C3, whose
line-repeat mapping is absent from the renderer in pong.c): the byte row
the specification says scan line `i` should serialize — logical row
`(i - STARTRENDER) / RENDERREP` of the video buffer, each row being
`PIXELBYTES` wide. -/
def specRowBytes (i : Nat) : List Nat :=
  (List.range PIXELBYTES).map
    (fun j => video.getD (((i - STARTRENDER) / RENDERREP) * PIXELBYTES + j) 0)

set_option maxRecDepth 100000 in
/-- Claim C3 (counterexample): at the reachable iteration handling scan
line 30 (active-picture index 10, claimed logical row 2), the renderer
transmits the fixed bytes `video[0..PIXELBYTES)` (all `0x55`), not the
claimed logical row 2 — which does not even lie inside the 20-byte video
array (its bytes read back as the 0 default). -/
theorem c3_counterexample :
    (stepState^[38] pInit).scanLine = 30 ∧
    (tick (stepState^[38] pInit)).2 =
      0 :: ((List.range PIXELBYTES).map (fun i => video.getD i 0) ++ [0]) ∧
    (tick (stepState^[38] pInit)).2 ≠ 0 :: (specRowBytes 30 ++ [0]) ∧
    specRowBytes 30 = [0, 0, 0, 0, 0, 0, 0, 0, 0, 0] :=
  ⟨by decide, by decide, by decide, by decide⟩

/-- Claim C3 (amended): the renderer's output is independent of the
scan-line counter — every rendered scan line transmits the same fixed
bytes `video[0..PIXELBYTES)` (bracketed by two stuffing zeros); no
line-repeat mapping by `scanLine / RENDERREP` is performed (`RENDERREP`
occurs only in the unused `VIDEORAM` size constant). -/
theorem c3_renderer_fixed (s t : PState) (n : Nat)
    (hs : s.skipRendering = false) (ht : t.skipRendering = false) :
    renderer { s with scanLine := n } = renderer s ∧
    renderer s = renderer t := by
  constructor <;> simp [renderer, hs, ht]

set_option maxRecDepth 100000 in
/-- Claim C3 (witness): the iterations that rendered scan lines 20 and
30 produced identical output. -/
theorem c3_renderer_fixed_witness :
    renderer (stepState^[29] pInit) = renderer (stepState^[39] pInit) :=
  (c3_renderer_fixed (stepState^[29] pInit) (stepState^[39] pInit) 0
    (by decide) (by decide)).2
